import Mathlib

/-!
Verification of the bounded-batch migration engine of the albums-collection-app
repository (`scripts/supabase_to_sheets.py` and `migrate_to_sheets.py`).

The Python code is shallowly embedded: Python values flowing through the
migration are modelled by the inductive type `PyVal`; `json.dumps(·,
separators=(',', ':'))` is modelled by `json_dumps`; the encoder
`safe_json_stringify`, the record transformer `process_album_for_sheets`, and
the paginated import/export loops are translated function by function.  The
only in-place mutations the Python performs (`list.append` on a slice,
dict-entry insertion into fresh dicts) are tracked explicitly: the embedded
encoder returns, alongside its string result and the updated truncation
counter, the value of its `data` argument after the call, reflecting Python
aliasing (a slice `data[:k]` is a fresh copy, `data` itself an alias).
-/

set_option autoImplicit false

/-- A Python value as handled by the migration scripts: JSON-like data plus
`obj`, an arbitrary non-JSON-serializable Python object (e.g. a `datetime`),
on which `json.dumps` raises; `desc` stands for `str(e)` of that exception. -/
inductive PyVal where
  | none
  | bool (b : Bool)
  | int (n : Int)
  | str (s : String)
  | list (xs : List PyVal)
  | dict (kvs : List (String × PyVal))
  | obj (desc : String)

/-- Lower-case hexadecimal digit, as used by `json.dumps` `\uXXXX` escapes. -/
def hexDigit (n : Nat) : Char :=
  if n < 10 then Char.ofNat (48 + n % 10) else Char.ofNat (87 + n % 16)

/-- A `\uXXXX` escape sequence for a code point below `0x10000`. -/
def uEscape (n : Nat) : List Char :=
  ['\\', 'u', hexDigit (n / 4096 % 16), hexDigit (n / 256 % 16),
   hexDigit (n / 16 % 16), hexDigit (n % 16)]

/-- How `json.dumps` (default `ensure_ascii=True`) renders one character of a
string: quote and backslash are escaped, common control characters use the
short escapes, other control characters and all non-ASCII characters use
`\uXXXX` (a surrogate pair for code points above `0xFFFF`). -/
def escapeChar (c : Char) : List Char :=
  if c = '"' then ['\\', '"']
  else if c = '\\' then ['\\', '\\']
  else if c = '\n' then ['\\', 'n']
  else if c = '\t' then ['\\', 't']
  else if c = '\r' then ['\\', 'r']
  else if c.toNat < 32 then uEscape c.toNat
  else if c.toNat < 127 then [c]
  else if c.toNat < 65536 then uEscape c.toNat
  else uEscape (55296 + (c.toNat - 65536) / 1024) ++ uEscape (56320 + (c.toNat - 65536) % 1024)

/-- Escaping by `json.dumps` of a whole string body. -/
def escapeStr (s : List Char) : List Char :=
  s.foldr (fun c acc => escapeChar c ++ acc) []

mutual
/-- The characters of `json.dumps(v, separators=(',', ':'))` — compact JSON,
no extraneous whitespace.  On a non-serializable `obj` the real `json.dumps`
raises; this total function returns junk (`[]`) there, and the fallible
wrapper `json_dumps` below reports the error instead, so `dumpsL`'s value at
`obj` is never observed. -/
def dumpsL : PyVal → List Char
  | .none => "null".data
  | .bool true => "true".data
  | .bool false => "false".data
  | .int n => (toString n).data
  | .str s => '"' :: (escapeStr s.data ++ ['"'])
  | .list xs => '[' :: (dumpsElems xs ++ [']'])
  | .dict kvs => '{' :: (dumpsEntries kvs ++ ['}'])
  | .obj _ => []
termination_by structural v => v

/-- Comma-separated serializations of list elements. -/
def dumpsElems : List PyVal → List Char
  | [] => []
  | [x] => dumpsL x
  | x :: y :: xs => dumpsL x ++ ',' :: dumpsElems (y :: xs)
termination_by structural l => l

/-- Comma-separated `"key":value` serializations of dict entries. -/
def dumpsEntries : List (String × PyVal) → List Char
  | [] => []
  | [(k, v)] => '"' :: (escapeStr k.data ++ '"' :: ':' :: dumpsL v)
  | (k, v) :: e :: kvs =>
      ('"' :: (escapeStr k.data ++ '"' :: ':' :: dumpsL v)) ++ ',' :: dumpsEntries (e :: kvs)
termination_by structural d => d
end

mutual
/-- Whether `json.dumps` succeeds on the value (no `obj` anywhere inside). -/
def serializable : PyVal → Bool
  | .list xs => serializableElems xs
  | .dict kvs => serializableEntries kvs
  | .obj _ => false
  | _ => true
termination_by structural v => v

/-- Conjunction of `serializable` over the elements of a list. -/
def serializableElems : List PyVal → Bool
  | [] => true
  | x :: xs => serializable x && serializableElems xs
termination_by structural l => l

/-- Conjunction of `serializable` over the values of a dict. -/
def serializableEntries : List (String × PyVal) → Bool
  | [] => true
  | (_, v) :: kvs => serializable v && serializableEntries kvs
termination_by structural d => d
end

mutual
/-- The description (`str(e)`) of the serialization error raised by the first
non-serializable object encountered, or `""` when serialization succeeds. -/
def errDesc : PyVal → String
  | .obj d => d
  | .list xs => errDescElems xs
  | .dict kvs => errDescEntries kvs
  | _ => ""
termination_by structural v => v

/-- First serialization-error description within a list. -/
def errDescElems : List PyVal → String
  | [] => ""
  | x :: xs => if serializable x then errDescElems xs else errDesc x
termination_by structural l => l

/-- First serialization-error description within a dict. -/
def errDescEntries : List (String × PyVal) → String
  | [] => ""
  | (_, v) :: kvs => if serializable v then errDescEntries kvs else errDesc v
termination_by structural d => d
end

/-- Model of `json.dumps(data, separators=(',', ':'))`: the compact serialization, or
the exception description when the value is not JSON-serializable. -/
def json_dumps (v : PyVal) : Except String String :=
  if serializable v then .ok ⟨dumpsL v⟩ else .error (errDesc v)

/-- Variant of `json.dumps` where the caller knows serialization cannot fail (used in the
truncation branches, which only re-serialize parts of an already successfully
serialized value plus fresh sentinel entries). -/
def dumpsStr (v : PyVal) : String :=
  ⟨dumpsL v⟩

/-- Python truthiness: `bool(data)` for the values the scripts handle.
Arbitrary objects without `__bool__`/`__len__` are truthy. -/
def pyFalsy : PyVal → Bool
  | .none => true
  | .bool b => !b
  | .int n => n == 0
  | .str s => s.isEmpty
  | .list xs => xs.isEmpty
  | .dict kvs => kvs.isEmpty
  | .obj _ => false

/-- Python `str(data)` for the scalar values that can reach the string
fallback branches (`str`, numbers, booleans, `None`); for an `obj` it is that
object's `str`.  Lists/dicts never reach those branches, so their value here
is irrelevant. -/
def pyStr : PyVal → String
  | .str s => s
  | .int n => toString n
  | .bool true => "True"
  | .bool false => "False"
  | .none => "None"
  | .list _ => ""
  | .dict _ => ""
  | .obj d => d

/-- Constant `MAX_CELL_SIZE = 45000` from `scripts/supabase_to_sheets.py`. -/
def MAX_CELL_SIZE : Nat := 45000

namespace S2S

/-- The sentinel dict appended by the `tracklist` truncation branch:
`{'position': '...', 'title': f'...and {n} more tracks (truncated)',
'type_': 'note'}` where `n = len(data) - 20`. -/
def tracklistSentinel (dropped : Nat) : PyVal :=
  .dict [("position", .str "..."),
         ("title", .str ("...and " ++ toString dropped ++ " more tracks (truncated)")),
         ("type_", .str "note")]

/-- The sentinel dict appended by the `credits` truncation branch:
`{'name': f'...and {n} more credits (truncated)', 'role': 'note'}`. -/
def creditsSentinel (dropped : Nat) : PyVal :=
  .dict [("name", .str ("...and " ++ toString dropped ++ " more credits (truncated)")),
         ("role", .str "note")]

/-- The early return of `safe_json_stringify` when `json.dumps(data)` raises:
`f"{{\"error\": \"serialization failed: {str(e)}\"}}"`. -/
def serializationErrorResult (e : String) : String :=
  "\x7b\"error\": \"serialization failed: " ++ e ++ "\"\x7d"

/-- The dict-accumulation loop of `safe_json_stringify`'s mapping branch:

```python
essential = {}
for key, value in data.items():
    essential[key] = value
    test_json = json.dumps(essential, separators=(',', ':'))
    if len(test_json) > MAX_CELL_SIZE * 0.8:  # Leave some buffer
        break
return json.dumps(essential, separators=(',', ':'))
```

`MAX_CELL_SIZE * 0.8` is compared against an integer length, and no integer
lies between `45000 * 8 / 10 = 36000` and the floating-point product, so the
break condition is exactly `len(test_json) > 36000`. -/
def essentialLoop : List (String × PyVal) → List (String × PyVal) → List (String × PyVal)
  | [], essential => essential
  | (key, value) :: rest, essential =>
      let essential := essential ++ [(key, value)]
      if (dumpsStr (.dict essential)).length > MAX_CELL_SIZE * 8 / 10 then essential
      else essentialLoop rest essential

/-- Result of one `safe_json_stringify` call: the returned string, the
updated `self.truncation_count`, and the value of the `data` argument after
the call (tracking the in-place `append` the tracklist/credits branches
perform, which lands on a fresh slice copy whenever it happens at all). -/
structure EncodeResult where
  result : String
  truncation_count : Nat
  data_after : PyVal

/-- Model of `SupabaseToSheetsImporter.safe_json_stringify(self, data, field_name)`
from `scripts/supabase_to_sheets.py`, with `self.truncation_count` threaded
explicitly as `tc`. -/
def safe_json_stringify (data : PyVal) (field_name : String) (tc : Nat) : EncodeResult :=
  -- if not data: return ''
  if pyFalsy data then ⟨"", tc, data⟩
  else
    match json_dumps data with
    | .error e => ⟨serializationErrorResult e, tc, data⟩
    | .ok full_json =>
      -- if len(full_json) <= MAX_CELL_SIZE: return full_json
      if full_json.length ≤ MAX_CELL_SIZE then ⟨full_json, tc, data⟩
      else
        -- self.truncation_count += 1
        let tc := tc + 1
        match data with
        | .list ls =>
          if field_name = "tracklist" then
            -- truncated = data[:20] if len(data) > 20 else data
            -- (a slice is a fresh list; the alias case never appends)
            let isCopy := ls.length > 20
            let truncated := if isCopy then ls.take 20 else ls
            let truncated :=
              if ls.length > 20 then truncated ++ [tracklistSentinel (ls.length - 20)]
              else truncated
            ⟨dumpsStr (.list truncated), tc, if isCopy then data else .list truncated⟩
          else if field_name = "credits" then
            -- truncated = data[:30] if len(data) > 30 else data
            let isCopy := ls.length > 30
            let truncated := if isCopy then ls.take 30 else ls
            let truncated :=
              if ls.length > 30 then truncated ++ [creditsSentinel (ls.length - 30)]
              else truncated
            ⟨dumpsStr (.list truncated), tc, if isCopy then data else .list truncated⟩
          else if field_name = "images" then
            -- truncated = data[:3] if len(data) > 3 else data  (no append)
            let truncated := if ls.length > 3 then ls.take 3 else ls
            ⟨dumpsStr (.list truncated), tc, data⟩
          else if field_name = "formats" then
            -- truncated = data[:2] if len(data) > 2 else data  (no append)
            let truncated := if ls.length > 2 then ls.take 2 else ls
            ⟨dumpsStr (.list truncated), tc, data⟩
          else
            -- truncated = data[:len(data)//2] if len(data) > 1 else data
            let truncated := if ls.length > 1 then ls.take (ls.length / 2) else ls
            ⟨dumpsStr (.list truncated), tc, data⟩
        | .dict kvs =>
          let essential := essentialLoop kvs []
          ⟨dumpsStr (.dict essential), tc, data⟩
        | _ =>
          -- truncated = str(data)[:MAX_CELL_SIZE - 20] + '...(truncated)'
          -- return json.dumps(truncated, separators=(',', ':'))
          let truncated : String := ⟨(pyStr data).data.take (MAX_CELL_SIZE - 20)⟩ ++ "...(truncated)"
          ⟨dumpsStr (.str truncated), tc, data⟩

/-- A source record, as returned by Supabase: a Python dict from field name
to value, in insertion order. -/
def Album : Type := List (String × PyVal)

/-- Python `album.get(key, default)`. -/
def albumGet (album : Album) (key : String) (default : PyVal) : PyVal :=
  match List.lookup key album with
  | some v => v
  | Option.none => default

/-- Replacement of the value bound to `key` (first occurrence) — the effect
an in-place mutation of `album[key]` would have on the record.  Leaves the
record unchanged when the key is absent. -/
def albumSet : Album → String → PyVal → Album
  | [], _, _ => []
  | (k, v) :: rest, key, nv =>
      if k = key then (k, nv) :: rest else (k, v) :: albumSet rest key nv

/-- The genres/styles handling of `process_album_for_sheets`:

```python
g = album.get(field, [])
if isinstance(g, list):
    processed[field] = '|'.join(g) if g else ''
else:
    processed[field] = str(g) if g else ''
```

`'|'.join` is modelled via `pyStr` on each element; the records the script
handles hold strings there, where the two agree. -/
def processTags (album : Album) (field : String) : String :=
  match albumGet album field (.list []) with
  | .list xs => if xs.isEmpty then "" else String.intercalate "|" (xs.map pyStr)
  | v => if pyFalsy v then "" else pyStr v

/-- The body of the `for field in json_fields` loop of
`process_album_for_sheets`, for one field: returns the cell string, the
updated truncation counter, and the record after the call (tracking any
mutation `safe_json_stringify` performed on the shared field value). -/
def processJsonField (album : Album) (field : String) (tc : Nat) :
    String × Nat × Album :=
  let value := albumGet album field .none
  -- if value: ... else: processed[field] = ''
  if pyFalsy value then ("", tc, album)
  else
    match value with
    | .dict kvs =>
        let r := safe_json_stringify (.dict kvs) field tc
        (r.result, r.truncation_count, albumSet album field r.data_after)
    | .list xs =>
        let r := safe_json_stringify (.list xs) field tc
        (r.result, r.truncation_count, albumSet album field r.data_after)
    | v =>
        -- str_value = str(value); truncate directly if oversized
        let str_value := pyStr v
        if str_value.length > MAX_CELL_SIZE then
          (⟨str_value.data.take (MAX_CELL_SIZE - 20)⟩ ++ "...(truncated)", tc + 1, album)
        else
          (str_value, tc, album)

/-- The `processed` dict built by `process_album_for_sheets`, one Lean field
per key.  Only `id` is passed through `str(...)` by the code; the other basic
fields keep whatever value the record held. -/
structure ProcessedAlbum where
  id : String
  title : PyVal
  year : PyVal
  artist : PyVal
  role : PyVal
  type : PyVal
  genres : String
  styles : String
  formats : String
  images : String
  tracklist : String
  track_count : PyVal
  credits : String
  cover_image : PyVal
  formatted_year : PyVal
  created_at : PyVal
  updated_at : PyVal

/-- Model of `SupabaseToSheetsImporter.process_album_for_sheets(self, album)`, with
`self.truncation_count` threaded as `tc`; also returns the record after the
call, for the frame property. -/
def process_album_for_sheets (album : Album) (tc : Nat) :
    ProcessedAlbum × Nat × Album :=
  -- basic fields and genres/styles are read before the json-field loop runs
  let idv := pyStr (albumGet album "id" (.str ""))
  let title := albumGet album "title" (.str "")
  let year := albumGet album "year" (.str "")
  let artist := albumGet album "artist" (.str "")
  let role := albumGet album "role" (.str "")
  let type := albumGet album "type" (.str "")
  let genres := processTags album "genres"
  let styles := processTags album "styles"
  -- for field in ['formats', 'images', 'tracklist', 'credits']: ...
  let (formats, tc, album') := processJsonField album "formats" tc
  let (images, tc, album') := processJsonField album' "images" tc
  let (tracklist, tc, album') := processJsonField album' "tracklist" tc
  let (credits, tc, album') := processJsonField album' "credits" tc
  (⟨idv, title, year, artist, role, type, genres, styles,
    formats, images, tracklist,
    albumGet album' "track_count" (.int 0),
    credits,
    albumGet album' "cover_image" (.str ""),
    albumGet album' "formatted_year" (.str ""),
    albumGet album' "created_at" (.str ""),
    albumGet album' "updated_at" (.str "")⟩, tc, album')

/-- The 17-element row list built from one processed album in
`import_albums_to_sheets`. -/
def rowOf (p : ProcessedAlbum) : List PyVal :=
  [.str p.id, p.title, p.year, p.artist, p.role, p.type,
   .str p.genres, .str p.styles, .str p.formats, .str p.images,
   .str p.tracklist, p.track_count, .str p.credits, p.cover_image,
   p.formatted_year, p.created_at, p.updated_at]

end S2S

/-- Python `range(0, stop, step)` for positive `step`: the offsets visited by
the batch loops. -/
def pyRange (stop step : Nat) : List Nat :=
  (List.range ((stop + step - 1) / step)).map (fun k => k * step)

namespace S2S

/-- Remote collaborators of `SupabaseToSheetsImporter`, abstracted as
oracles: `fetch offset` is the outcome of the Supabase range query issued at
that offset, and `write_ok n` the outcome of the `n`-th
`albums_sheet.update` call of the run. -/
structure ImportEnv where
  fetch : Nat → Except String (List Album)
  write_ok : Nat → Bool

/-- One `albums_sheet.update` call observed during the import: the computed
range bounds, the chunk's row count, and whether the call succeeded. -/
structure WriteEv where
  start_row : Nat
  end_row : Nat
  size : Nat
  ok : Bool
  deriving DecidableEq

/-- Run-scoped state of `import_albums_to_sheets`: the local
`imported_count`, the shared `self.truncation_count`, and observation traces
(number of write calls issued, their events, the offsets fetched). -/
structure ImportState where
  imported_count : Nat
  truncation_count : Nat
  write_calls : Nat
  writes : List WriteEv
  fetched_offsets : List Nat
  deriving DecidableEq

/-- Model of `export_albums_batch(self, offset, batch_size)`: returns the fetched
records, or `[]` when the query raises (`except: ... return []`). -/
def export_albums_batch (env : ImportEnv) (offset : Nat) : List Album :=
  match env.fetch offset with
  | .ok data => data
  | .error _ => []

/-- The `for album in batch_albums` body: processes each record in order,
threading `self.truncation_count`, and collects the 17-column rows. -/
def processBatch : List Album → Nat → List (List PyVal) × Nat
  | [], tc => ([], tc)
  | a :: rest, tc =>
      let r := process_album_for_sheets a tc
      let rest' := processBatch rest r.2.1
      (rowOf r.1 :: rest'.1, rest'.2)

/-- The inner chunk loop of `import_albums_to_sheets`:

```python
for i in range(0, len(processed_albums), sheets_batch_size):
    chunk = processed_albums[i:i + sheets_batch_size]
    start_row = imported_count + 2
    end_row = start_row + len(chunk) - 1
    try:
        albums_sheet.update(f"A{start_row}:Q{end_row}", chunk)
        imported_count += len(chunk)
    except Exception:
        continue
```

with `sheets_batch_size = 50`; a failed `update` leaves `imported_count`
unchanged and moves on to the next chunk. -/
def importChunks (env : ImportEnv) (rows : List (List PyVal)) (st : ImportState) : ImportState :=
  (pyRange rows.length 50).foldl
    (fun st i =>
      let chunk := (rows.drop i).take 50
      let start_row := st.imported_count + 2
      let end_row := start_row + chunk.length - 1
      let ok := env.write_ok st.write_calls
      { st with
        write_calls := st.write_calls + 1,
        writes := st.writes ++ [⟨start_row, end_row, chunk.length, ok⟩],
        imported_count := if ok then st.imported_count + chunk.length else st.imported_count })
    st

/-- One iteration of the outer batch loop of `import_albums_to_sheets` at a
given offset: record the fetch, skip the batch when the export failed or
returned nothing (`continue`), otherwise process the records and write the
chunks. -/
def importOuterStep (env : ImportEnv) (st : ImportState) (offset : Nat) : ImportState :=
  let st := { st with fetched_offsets := st.fetched_offsets ++ [offset] }
  let batch_albums := export_albums_batch env offset
  if batch_albums.isEmpty then st
  else
    let pr := processBatch batch_albums st.truncation_count
    importChunks env pr.1 { st with truncation_count := pr.2 }

/-- Model of `import_albums_to_sheets(self, albums_sheet, total_albums)`: the outer
batch loop over `range(0, total_albums, 300)`. -/
def import_albums_to_sheets (env : ImportEnv) (total_albums : Nat) (st : ImportState) : ImportState :=
  (pyRange total_albums 300).foldl (importOuterStep env) st

/-- Fresh per-call state of `import_albums_to_sheets` (`imported_count = 0`),
starting from the importer's current `self.truncation_count`. -/
def initImportState (tc : Nat) : ImportState :=
  ⟨0, tc, 0, [], []⟩

/-- Oracles for a whole `run_migration` run. `count_result` is the outcome of
the count query, `albums_sheet_rows`/`history_sheet_rows` the
`len(get_all_values())` of the two destination sheets before the run.
History-sheet writes carry no try/except in the source and are modelled as
succeeding. -/
structure RunEnv where
  connections_ok : Bool
  count_result : Except String Nat
  history_result : Except String (List Album)
  albums_sheet_found : Bool
  history_sheet_found : Bool
  albums_sheet_rows : Nat
  history_sheet_rows : Nat
  fetch : Nat → Except String (List Album)
  write_ok : Nat → Bool

/-- Destination-visible effects plus counters of one `run_migration` run. -/
structure RunState where
  truncation_count : Nat
  albums_cleared : Bool
  history_cleared : Bool
  album_writes : List WriteEv
  history_rows_written : Nat
  deriving DecidableEq

/-- Model of `get_total_count(self)`: the count, or `0` when the query raises
(`except: ... return 0`). -/
def get_total_count (env : RunEnv) : Nat :=
  match env.count_result with
  | .ok n => n
  | .error _ => 0

/-- Model of `export_scraped_history(self)`: the records, or `[]` on failure. -/
def export_scraped_history (env : RunEnv) : List Album :=
  match env.history_result with
  | .ok data => data
  | .error _ => []

/-- Model of `setup_google_sheets(self)`: finds both sheets and clears their data rows
(rows 2 and below) when any are present.  Returns whether both sheets are
ready; note the Albums sheet is already cleared before the Scraped_History
lookup can fail. -/
def setup_google_sheets (env : RunEnv) (st : RunState) : Bool × RunState :=
  if !env.albums_sheet_found then (false, st)
  else
    let st := if env.albums_sheet_rows > 1 then { st with albums_cleared := true } else st
    if !env.history_sheet_found then (false, st)
    else
      let st := if env.history_sheet_rows > 1 then { st with history_cleared := true } else st
      (true, st)

/-- Model of `import_history_to_sheets(self, history_sheet, history_data)`: writes the
history rows in batches of 50 (modelled as succeeding; the source wraps these
writes in no try/except). -/
def import_history_to_sheets (st : RunState) (history_data : List Album) : RunState :=
  { st with history_rows_written := history_data.length }

/-- The number of album data rows `verify_import` reads back: everything the
successful chunk writes cover (rows `2 .. end_row`), on top of whatever data
rows survived the (possibly skipped) clearing step. -/
def actualAlbumRows (initial_rows : Nat) (cleared : Bool) (writes : List WriteEv) : Nat :=
  let base := if cleared then 0 else initial_rows - 1
  writes.foldl (fun acc w => if w.ok then max acc (w.end_row - 1) else acc) base

/-- Model of `verify_import(self, ...)`: exact row-count comparison for both sheets. -/
def verify_import (env : RunEnv) (st : RunState) (expected_albums expected_history : Nat) : Bool :=
  (actualAlbumRows env.albums_sheet_rows st.albums_cleared st.album_writes == expected_albums)
    && (st.history_rows_written == expected_history)

/-- Model of `run_migration(self)` from `scripts/supabase_to_sheets.py`: connect,
count, export history, set up sheets (clearing existing data rows), import
albums and history, then verify.  Returns the verdict and the accumulated
destination effects. -/
def run_migration (env : RunEnv) : Bool × RunState :=
  let st : RunState := ⟨0, false, false, [], 0⟩
  if !env.connections_ok then (false, st)
  else
    let total_albums := get_total_count env
    let history_data := export_scraped_history env
    let setup := setup_google_sheets env st
    if !setup.1 then (false, setup.2)
    else
      let st := setup.2
      let ist := import_albums_to_sheets ⟨env.fetch, env.write_ok⟩ total_albums
        (initImportState st.truncation_count)
      let st := { st with truncation_count := ist.truncation_count, album_writes := ist.writes }
      let st := import_history_to_sheets st history_data
      (verify_import env st total_albums history_data.length, st)

end S2S

namespace M2S

/-- Constant `BATCH_SIZE = 50` from `migrate_to_sheets.py`. -/
def BATCH_SIZE : Nat := 50

/-- Constant `RATE_LIMIT_DELAY = 2` (seconds) from `migrate_to_sheets.py`. -/
def RATE_LIMIT_DELAY : Nat := 2

/-- The export loop of `SupabaseExporter.export_albums_in_batches`:

```python
while True:
    try:
        response = ...range(offset, offset + 1000 - 1)...
        batch = response.data
        if not batch:
            break
        all_albums.extend(batch)
        offset += 1000
    except Exception:
        break
```

`fuel` bounds the number of iterations (the real source is finite, so the
loop always terminates; every claim below holds for all fuel values). -/
def exportLoop (fetch : Nat → Except String (List S2S.Album)) :
    Nat → Nat → List S2S.Album → List S2S.Album
  | 0, _, all_albums => all_albums
  | fuel + 1, offset, all_albums =>
      match fetch offset with
      | .error _ => all_albums
      | .ok [] => all_albums
      | .ok (a :: batch) =>
          exportLoop fetch fuel (offset + 1000) (all_albums ++ a :: batch)

/-- Model of `export_albums_in_batches(self)`: run the export loop from offset 0. -/
def export_albums_in_batches (fetch : Nat → Except String (List S2S.Album)) (fuel : Nat) :
    List S2S.Album :=
  exportLoop fetch fuel 0 []

/-- An observable event of `GoogleSheetsImporter.import_albums_in_batches`:
one `values().update` call (`retry = true` for the second attempt at the same
batch) or one `time.sleep`. -/
inductive MigEv where
  | attempt (batch : Nat) (retry : Bool) (ok : Bool)
  | sleepFor (secs : Nat)
  deriving DecidableEq

/-- One iteration of `import_albums_in_batches`'s batch loop at offset `i`:
try the write; on success count the rows and rate-limit unless this was the
final batch; on failure sleep 5 s and retry exactly once, then move on ---
`except retry_error: ... continue with next batch`. -/
def migBatchStep (total : Nat) (ok : Nat → Nat → Bool) (st : Nat × List MigEv) (i : Nat) :
    Nat × List MigEv :=
  let imported := st.1
  let evs := st.2
  let b := i / BATCH_SIZE
  let size := min BATCH_SIZE (total - i)
  if ok b 0 then
    let evs := evs ++ [.attempt b false true]
    let evs := if i + BATCH_SIZE < total then evs ++ [.sleepFor RATE_LIMIT_DELAY] else evs
    (imported + size, evs)
  else
    let evs := evs ++ [.attempt b false false, .sleepFor 5]
    if ok b 1 then (imported + size, evs ++ [.attempt b true true])
    else (imported, evs ++ [.attempt b true false])

/-- Model of `import_albums_in_batches(self, albums)` from `migrate_to_sheets.py`,
abstracted over the rows' content (only counts reach the observable
behaviour): `total` is `len(albums)` and `ok b a` the outcome of attempt `a`
(0 = first try, 1 = retry) of batch `b`.  Returns `imported_count` and the
event trace. -/
def import_albums_in_batches (total : Nat) (ok : Nat → Nat → Bool) : Nat × List MigEv :=
  (pyRange total BATCH_SIZE).foldl (migBatchStep total ok) (0, [])

/-- Write attempts for batch `b` within a trace. -/
def attemptsFor (b : Nat) (evs : List MigEv) : Nat :=
  (evs.filter (fun e =>
    match e with
    | .attempt b' _ _ => b' == b
    | _ => false)).length

end M2S

/-- A run of `n` copies of the letter `a` — the bulk payload used for the
concrete oversized inputs below. -/
def aChars (n : Nat) : List Char :=
  List.replicate n 'a'

/-- A string of `n` letters `a`. -/
def aStr (n : Nat) : String :=
  ⟨aChars n⟩

/-- Substring test: whether `needle` occurs contiguously inside `hay`. -/
def containsSub (needle : List Char) : List Char → Bool
  | [] => needle.isEmpty
  | c :: rest => needle.isPrefixOf (c :: rest) || containsSub needle rest

/-- Concrete oversized mapping: `{"a": "a" * 50000}`, whose compact JSON
serialization is 50,008 characters long. -/
def oversizedDictA : PyVal :=
  .dict [("a", .str (aStr 50000))]

/-- Concrete oversized mapping whose first entry alone serializes past 80% of
the cap: `{"a": "a" * 40000, "b": "a" * 10000}`. -/
def eightyPercentDict : List (String × PyVal) :=
  [("a", .str (aStr 40000)), ("b", .str (aStr 10000))]

/-- The `title` entry of a track dict, when there is one. -/
def titleOf : PyVal → Option PyVal
  | .dict kvs => List.lookup "title" kvs
  | _ => Option.none

/-- A 25-element track list of 3,000-character titles, whose compact
serialization is 75,076 characters long. -/
def trackList25 : List PyVal :=
  List.replicate 25 (.str (aStr 3000))

namespace S2S

/-- Running count of rows covered by the successful writes of a trace,
starting from `imported`. -/
def okAfter (imported : Nat) : List WriteEv → Nat
  | [] => imported
  | w :: rest => okAfter (if w.ok then imported + w.size else imported) rest

/-- Whether every write of a trace starts at row `imported + 2`, where
`imported` is the running count of rows successfully imported before it —
the contiguous-block discipline of `import_albums_to_sheets`. -/
def contiguousFrom (imported : Nat) : List WriteEv → Bool
  | [] => true
  | w :: rest =>
      w.start_row == imported + 2 &&
        contiguousFrom (if w.ok then imported + w.size else imported) rest

/-- Oracle environment in which every chunk write fails. -/
def oneFailEnv : ImportEnv :=
  ⟨fun _ => .ok [[("id", PyVal.int 1)]], fun _ => false⟩

/-- Oracle environment for a run whose count query raises: connections fine,
both sheets present, 5 pre-existing rows on the Albums sheet. -/
def envCountFails : RunEnv :=
  ⟨true, .error "count query failed", .ok [], true, true, 5, 1,
   fun _ => .ok [], fun _ => true⟩

end S2S

namespace M2S

/-- The events one iteration of the batch loop of `import_albums_in_batches`
contributes at offset `i` (derived from `migBatchStep`; see
`migBatchStep_trace`). -/
def migBatchEvs (total : Nat) (ok : Nat → Nat → Bool) (i : Nat) : List MigEv :=
  let b := i / BATCH_SIZE
  if ok b 0 then
    .attempt b false true ::
      (if i + BATCH_SIZE < total then [.sleepFor RATE_LIMIT_DELAY] else [])
  else
    [.attempt b false false, .sleepFor 5, .attempt b true (ok b 1)]

/-- Page-fetch oracle that fails at offset 0 while offset 1000 still holds a
record. -/
def failingFetch : Nat → Except String (List S2S.Album) :=
  fun offset =>
    if offset = 0 then .error "network error"
    else if offset = 1000 then .ok [[("id", PyVal.int 1)]]
    else .ok []

end M2S

/-- Retry oracle whose first attempt always fails and whose retry always
succeeds. -/
def migOkRetry : Nat → Nat → Bool :=
  fun _ a => a == 1

theorem escapeChar_a : escapeChar 'a' = ['a'] := by
  decide

theorem escapeStr_nil : escapeStr [] = [] := rfl

theorem escapeStr_cons (c : Char) (s : List Char) :
    escapeStr (c :: s) = escapeChar c ++ escapeStr s := rfl

theorem escapeStr_aChars (n : Nat) : escapeStr (aChars n) = aChars n := by
  induction n with
  | zero => rfl
  | succ m ih =>
      show escapeStr ('a' :: aChars m) = 'a' :: aChars m
      rw [escapeStr_cons, escapeChar_a, ih]
      rfl

theorem length_dumpsL_str_aStr (n : Nat) : (dumpsL (.str (aStr n))).length = n + 2 := by
  show ('"' :: (escapeStr (aStr n).data ++ ['"'])).length = n + 2
  rw [show (aStr n).data = aChars n from rfl, escapeStr_aChars]
  simp [aChars]

theorem length_dumpsEntries_single (k : String) (v : PyVal) :
    (dumpsEntries [(k, v)]).length = (escapeStr k.data).length + (dumpsL v).length + 3 := by
  simp [dumpsEntries]
  omega

theorem length_dumpsEntries_pair (k1 k2 : String) (v1 v2 : PyVal) :
    (dumpsEntries [(k1, v1), (k2, v2)]).length =
      (escapeStr k1.data).length + (dumpsL v1).length +
      (escapeStr k2.data).length + (dumpsL v2).length + 7 := by
  simp [dumpsEntries]
  omega

theorem length_dumpsL_dict (kvs : List (String × PyVal)) :
    (dumpsL (.dict kvs)).length = (dumpsEntries kvs).length + 2 := by
  simp [dumpsL]

theorem length_dumpsElems_replicate (n : Nat) (v : PyVal) :
    (dumpsElems (List.replicate (n + 1) v)).length = (n + 1) * (dumpsL v).length + n := by
  induction n with
  | zero => simp [dumpsElems]
  | succ m ih =>
      rw [List.replicate_succ, List.replicate_succ]
      rw [show dumpsElems (v :: v :: List.replicate m v) =
            dumpsL v ++ ',' :: dumpsElems (v :: List.replicate m v) from rfl]
      rw [← List.replicate_succ]
      simp [ih]
      ring

theorem length_dumpsL_list (xs : List PyVal) :
    (dumpsL (.list xs)).length = (dumpsElems xs).length + 2 := by
  simp [dumpsL]

namespace S2S

theorem albumSet_albumGet (album : Album) (f : String) (d : PyVal) :
    albumSet album f (albumGet album f d) = album := by
  induction album with
  | nil => rfl
  | cons e rest ih =>
      obtain ⟨k, v⟩ := e
      by_cases h : k = f
      · subst h
        simp [albumSet, albumGet, List.lookup]
      · simp only [albumSet, if_neg h]
        have hg : albumGet ((k, v) :: rest) f d = albumGet rest f d := by
          simp [albumGet, List.lookup, show (f == k) = false by simpa using fun he => h he.symm]
        rw [hg, ih]

theorem safe_json_stringify_data_after (v : PyVal) (f : String) (tc : Nat) :
    (safe_json_stringify v f tc).data_after = v := by
  unfold safe_json_stringify
  by_cases h0 : pyFalsy v
  · simp [h0]
  · simp only [h0, Bool.false_eq_true, if_false]
    match hj : json_dumps v with
    | .error e => simp
    | .ok full_json =>
      by_cases h1 : full_json.length ≤ MAX_CELL_SIZE
      · simp [h1]
      · simp only [h1, if_false]
        match v with
        | .list ls =>
            by_cases ht : f = "tracklist"
            · simp only [ht, if_pos rfl]
              by_cases hc : ls.length > 20
              · simp [hc]
              · simp [hc]
            · by_cases hcr : f = "credits"
              · simp only [ht, if_false, hcr, if_pos rfl]
                by_cases hc : ls.length > 30
                · simp [hc]
                · simp [hc]
              · by_cases him : f = "images"
                · simp [ht, hcr, him]
                · by_cases hfo : f = "formats"
                  · simp [ht, hcr, him, hfo]
                  · simp [ht, hcr, him, hfo]
        | .dict kvs => simp
        | .none => simp
        | .bool b => simp
        | .int n => simp
        | .str s => simp
        | .obj d => simp

theorem processJsonField_album (album : Album) (f : String) (tc : Nat) :
    (processJsonField album f tc).2.2 = album := by
  unfold processJsonField
  by_cases h0 : pyFalsy (albumGet album f .none)
  · simp [h0]
  · simp only [h0, Bool.false_eq_true, if_false]
    match hv : albumGet album f .none with
    | .dict kvs =>
        simp only [safe_json_stringify_data_after]
        rw [← hv, albumSet_albumGet]
    | .list xs =>
        simp only [safe_json_stringify_data_after]
        rw [← hv, albumSet_albumGet]
    | .none =>
        by_cases h1 : (pyStr PyVal.none).length > MAX_CELL_SIZE <;> simp [h1]
    | .bool b =>
        by_cases h1 : (pyStr (PyVal.bool b)).length > MAX_CELL_SIZE <;> simp [h1]
    | .int n =>
        by_cases h1 : (pyStr (PyVal.int n)).length > MAX_CELL_SIZE <;> simp [h1]
    | .str s =>
        by_cases h1 : (pyStr (PyVal.str s)).length > MAX_CELL_SIZE <;> simp [h1]
    | .obj d =>
        by_cases h1 : (pyStr (PyVal.obj d)).length > MAX_CELL_SIZE <;> simp [h1]

theorem processBatch_albums_len (albums : List Album) (tc : Nat) :
    (processBatch albums tc).1.length = albums.length := by
  induction albums generalizing tc with
  | nil => rfl
  | cons a rest ih => simp [processBatch, ih]

end S2S

/-- C9: transforming a source record (`process_album_for_sheets`, including
every truncation branch of `safe_json_stringify`) leaves the record and all
of its nested field values unchanged: the record value after the call — with
every in-place `append`/slice aliasing effect of the Python accounted for —
is the record that went in. -/
theorem c9_process_album_never_mutates_record (album : S2S.Album) (tc : Nat) :
    (S2S.process_album_for_sheets album tc).2.2 = album := by
  simp [S2S.process_album_for_sheets, S2S.processJsonField_album]

namespace S2S

theorem safe_json_stringify_fit (v : PyVal) (f : String) (tc : Nat) (s : String)
    (h0 : pyFalsy v = false) (h1 : json_dumps v = .ok s)
    (h2 : s.length ≤ MAX_CELL_SIZE) :
    safe_json_stringify v f tc = ⟨s, tc, v⟩ := by
  unfold safe_json_stringify
  rw [h0]
  simp only [Bool.false_eq_true, if_false, h1, h2, if_true]

theorem safe_json_stringify_dict_branch (kvs : List (String × PyVal)) (f : String) (tc : Nat)
    (h0 : kvs ≠ []) (hs : serializable (.dict kvs) = true)
    (hb : MAX_CELL_SIZE < (dumpsL (.dict kvs)).length) :
    safe_json_stringify (.dict kvs) f tc =
      ⟨dumpsStr (.dict (essentialLoop kvs [])), tc + 1, .dict kvs⟩ := by
  have hfalsy : pyFalsy (.dict kvs) = false := by
    simp [pyFalsy, h0]
  have hjd : json_dumps (.dict kvs) = .ok ⟨dumpsL (.dict kvs)⟩ := by
    unfold json_dumps
    rw [hs]
    simp
  have hlen : ¬ ((⟨dumpsL (.dict kvs)⟩ : String).length ≤ MAX_CELL_SIZE) := by
    simp only [String.length]
    omega
  unfold safe_json_stringify
  rw [hfalsy]
  simp only [Bool.false_eq_true, if_false, hjd, hlen]

theorem safe_json_stringify_tracklist_branch (xs : List PyVal) (tc : Nat)
    (h20 : 20 < xs.length) (hs : serializable (.list xs) = true)
    (hb : MAX_CELL_SIZE < (dumpsL (.list xs)).length) :
    safe_json_stringify (.list xs) "tracklist" tc =
      ⟨dumpsStr (.list (xs.take 20 ++ [tracklistSentinel (xs.length - 20)])),
       tc + 1, .list xs⟩ := by
  have hfalsy : pyFalsy (.list xs) = false := by
    have : xs ≠ [] := by
      intro h
      rw [h] at h20
      simp at h20
    simp [pyFalsy, this]
  have hjd : json_dumps (.list xs) = .ok ⟨dumpsL (.list xs)⟩ := by
    unfold json_dumps
    rw [hs]
    simp
  have hlen : ¬ ((⟨dumpsL (.list xs)⟩ : String).length ≤ MAX_CELL_SIZE) := by
    simp only [String.length]
    omega
  unfold safe_json_stringify
  rw [hfalsy]
  simp only [Bool.false_eq_true, if_false, hjd, hlen, if_true, if_pos rfl]
  simp [h20]

end S2S

theorem length_dumpsL_oversizedDictA : (dumpsL oversizedDictA).length = 50008 := by
  rw [oversizedDictA, length_dumpsL_dict, length_dumpsEntries_single,
      length_dumpsL_str_aStr]
  decide

theorem length_dumpsStr_oversizedDictA :
    (dumpsStr (PyVal.dict [(("a" : String), PyVal.str (aStr 50000))])).length = 50008 := by
  rw [show PyVal.dict [(("a" : String), PyVal.str (aStr 50000))] = oversizedDictA from rfl]
  simp [dumpsStr, String.length, length_dumpsL_oversizedDictA]

theorem essentialLoop_oversizedDictA :
    S2S.essentialLoop [("a", .str (aStr 50000))] [] = [("a", .str (aStr 50000))] := by
  have hcond : (dumpsStr (PyVal.dict [(("a" : String), PyVal.str (aStr 50000))])).length >
      MAX_CELL_SIZE * 8 / 10 := by
    rw [length_dumpsStr_oversizedDictA]
    decide
  simp only [S2S.essentialLoop, List.nil_append]
  rw [if_pos hcond]

/-- C1 (code bug evidence): at the mapping `{"a": "a" * 50000}` the encoder
returns a 50,008-character string, exceeding the configured maximum
`MAX_CELL_SIZE = 45000` — the claimed size invariant
`len(safe_json_stringify(v, f)) <= 45000` fails on the code. -/
theorem c1_encoder_exceeds_max_cell_size :
    (S2S.safe_json_stringify oversizedDictA "formats" 0).result.length = 50008 ∧
    MAX_CELL_SIZE < (S2S.safe_json_stringify oversizedDictA "formats" 0).result.length := by
  have heval : S2S.safe_json_stringify oversizedDictA "formats" 0 =
      ⟨dumpsStr (.dict (S2S.essentialLoop [("a", .str (aStr 50000))] [])), 1, oversizedDictA⟩ := by
    rw [show oversizedDictA = PyVal.dict [("a", .str (aStr 50000))] from rfl]
    exact S2S.safe_json_stringify_dict_branch _ _ _ (by simp) (by decide)
      (by rw [show PyVal.dict [(("a" : String), PyVal.str (aStr 50000))] = oversizedDictA from rfl,
              length_dumpsL_oversizedDictA]; decide)
  rw [heval, essentialLoop_oversizedDictA]
  have h : (dumpsStr (PyVal.dict [("a", .str (aStr 50000))])).length = 50008 := by
    rw [show PyVal.dict [(("a" : String), PyVal.str (aStr 50000))] = oversizedDictA from rfl]
    simp [dumpsStr, String.length, length_dumpsL_oversizedDictA]
  exact ⟨h, by rw [h]; decide⟩

/-- C2 (amended): for every truthy value whose compact serialization fits
within `MAX_CELL_SIZE`, the encoder returns exactly that serialization,
byte-for-byte, leaving the truncation counter and the value untouched; for
falsy values (None, False, 0, empty string/list/mapping) it instead returns
the empty string — not the value's serialization. -/
theorem c2_fit_preserving_for_truthy_values :
    (∀ (v : PyVal) (f : String) (tc : Nat) (s : String),
        pyFalsy v = false → json_dumps v = .ok s → s.length ≤ MAX_CELL_SIZE →
        S2S.safe_json_stringify v f tc = ⟨s, tc, v⟩) ∧
    (∀ (v : PyVal) (f : String) (tc : Nat),
        pyFalsy v = true → S2S.safe_json_stringify v f tc = ⟨"", tc, v⟩) := by
  constructor
  · intro v f tc s h0 h1 h2
    exact S2S.safe_json_stringify_fit v f tc s h0 h1 h2
  · intro v f tc h0
    unfold S2S.safe_json_stringify
    rw [h0]
    simp

/-- C2 witness: the theorem applied at the fitting truthy value `5` and at
the falsy value `[]`. -/
theorem c2_fit_preserving_witness :
    S2S.safe_json_stringify (.int 5) "formats" 3 = ⟨"5", 3, .int 5⟩ ∧
    S2S.safe_json_stringify (.list []) "tracklist" 1 = ⟨"", 1, .list []⟩ :=
  ⟨c2_fit_preserving_for_truthy_values.1 (.int 5) "formats" 3 "5" (by decide) (by rfl) (by decide),
   c2_fit_preserving_for_truthy_values.2 (.list []) "tracklist" 1 (by decide)⟩

/-- C2 counterexample: the empty list is a value whose compact serialization
`"[]"` (2 characters) fits, yet the encoder returns `''`, not `"[]"` — the
claim's "including for empty lists, empty mappings, and other falsy values"
fails on the code's `if not data: return ''` guard. -/
theorem c2_empty_list_counterexample :
    json_dumps (PyVal.list []) = .ok "[]" ∧
    ("[]" : String).length ≤ MAX_CELL_SIZE ∧
    (S2S.safe_json_stringify (PyVal.list []) "tracklist" 0).result = "" ∧
    ("" : String) ≠ "[]" := by
  refine ⟨by rfl, by decide, by rfl, by decide⟩

namespace S2S

theorem essentialLoop_spec (rest pre : List (String × PyVal)) :
    ∃ m, m ≤ rest.length ∧
      essentialLoop rest pre = pre ++ rest.take m ∧
      (rest ≠ [] → 1 ≤ m) ∧
      (∀ j, 1 ≤ j → j < m →
        (dumpsStr (.dict (pre ++ rest.take j))).length ≤ MAX_CELL_SIZE * 8 / 10) ∧
      (m < rest.length →
        (dumpsStr (.dict (pre ++ rest.take m))).length > MAX_CELL_SIZE * 8 / 10) := by
  induction rest generalizing pre with
  | nil =>
      refine ⟨0, le_refl 0, by simp [essentialLoop], by simp, ?_, ?_⟩
      · intro j hj1 hj2
        omega
      · intro h
        simp at h
  | cons e rest' ih =>
      obtain ⟨k, v⟩ := e
      by_cases hcond :
          (dumpsStr (.dict (pre ++ [(k, v)]))).length > MAX_CELL_SIZE * 8 / 10
      · refine ⟨1, by simp, ?_, fun _ => le_refl 1, ?_, ?_⟩
        · simp only [essentialLoop]
          rw [if_pos hcond]
          simp
        · intro j hj1 hj2
          omega
        · intro _
          simpa using hcond
      · obtain ⟨m', hm'le, hm'eq, _, hm'mid, hm'last⟩ := ih (pre ++ [(k, v)])
        refine ⟨m' + 1, by simpa using hm'le, ?_, fun _ => by omega, ?_, ?_⟩
        · simp only [essentialLoop]
          rw [if_neg hcond, hm'eq]
          simp [List.take_succ_cons]
        · intro j hj1 hj2
          match j, hj1 with
          | 1, _ =>
              simpa using le_of_not_lt hcond
          | jj + 2, _ =>
              have h := hm'mid (jj + 1) (by omega) (by omega)
              simpa [List.take_succ_cons] using h
        · intro hlt
          have h := hm'last (by simpa using hlt)
          simpa [List.take_succ_cons] using h

end S2S

/-- C3 (amended): for an oversized mapping the encoder accumulates key/value
pairs in the mapping's iteration order, re-measuring serialized size after
each addition, and stops *after* adding the first pair that pushes the
accumulator's serialization past 80% of `MAX_CELL_SIZE` — that pair stays in
the accumulator (contrary to the claim's "stops before adding" it); the
returned string is the accumulator's serialization. -/
theorem c3_mapping_accumulates_until_past_eighty_percent
    (kvs : List (String × PyVal)) (f : String) (tc : Nat)
    (h0 : kvs ≠ []) (hs : serializable (.dict kvs) = true)
    (hb : MAX_CELL_SIZE < (dumpsL (.dict kvs)).length) :
    ∃ k, 1 ≤ k ∧ k ≤ kvs.length ∧
      (S2S.safe_json_stringify (.dict kvs) f tc).result = dumpsStr (.dict (kvs.take k)) ∧
      (∀ j, 1 ≤ j → j < k →
        (dumpsStr (.dict (kvs.take j))).length ≤ MAX_CELL_SIZE * 8 / 10) ∧
      (k < kvs.length →
        (dumpsStr (.dict (kvs.take k))).length > MAX_CELL_SIZE * 8 / 10) := by
  obtain ⟨m, hmle, hmeq, hm1, hmmid, hmlast⟩ := S2S.essentialLoop_spec kvs []
  refine ⟨m, hm1 h0, hmle, ?_, ?_, ?_⟩
  · rw [S2S.safe_json_stringify_dict_branch kvs f tc h0 hs hb]
    rw [hmeq]
    simp
  · intro j hj1 hj2
    simpa using hmmid j hj1 hj2
  · intro hlt
    simpa using hmlast hlt

theorem length_dumpsL_eightyPercentDict :
    (dumpsL (.dict eightyPercentDict)).length = 50015 := by
  rw [eightyPercentDict, length_dumpsL_dict, length_dumpsEntries_pair,
      length_dumpsL_str_aStr, length_dumpsL_str_aStr]
  decide

theorem length_dumpsL_eightyPercentHead :
    (dumpsL (.dict [(("a" : String), PyVal.str (aStr 40000))])).length = 40008 := by
  rw [length_dumpsL_dict, length_dumpsEntries_single, length_dumpsL_str_aStr]
  decide

/-- C3 counterexample: on `{"a": "a" * 40000, "b": "a" * 10000}` (full
serialization 50,015 > 45,000 characters) the pair that pushes the
accumulator past 80% of `MAX_CELL_SIZE` is *included*: the encoder returns
the 40,008-character serialization of `{"a": "a" * 40000}`, above the 36,000
bound that "stop before adding the overflowing pair" would enforce. -/
theorem c3_stop_before_counterexample :
    (S2S.safe_json_stringify (.dict eightyPercentDict) "formats" 0).result =
      dumpsStr (.dict [(("a" : String), PyVal.str (aStr 40000))]) ∧
    (dumpsStr (.dict [(("a" : String), PyVal.str (aStr 40000))])).length = 40008 ∧
    MAX_CELL_SIZE * 8 / 10 < 40008 := by
  have hcond : (dumpsStr (.dict [(("a" : String), PyVal.str (aStr 40000))])).length >
      MAX_CELL_SIZE * 8 / 10 := by
    show (⟨dumpsL (.dict [(("a" : String), PyVal.str (aStr 40000))])⟩ : String).length > _
    simp only [String.length]
    rw [length_dumpsL_eightyPercentHead]
    decide
  have hloop : S2S.essentialLoop eightyPercentDict [] =
      [(("a" : String), PyVal.str (aStr 40000))] := by
    simp only [eightyPercentDict, S2S.essentialLoop, List.nil_append]
    rw [if_pos hcond]
  have heval := S2S.safe_json_stringify_dict_branch eightyPercentDict "formats" 0
    (by simp [eightyPercentDict]) (by decide)
    (by rw [length_dumpsL_eightyPercentDict]; decide)
  rw [heval, hloop]
  refine ⟨rfl, ?_, by decide⟩
  show (⟨dumpsL (.dict [(("a" : String), PyVal.str (aStr 40000))])⟩ : String).length = 40008
  simp only [String.length]
  rw [length_dumpsL_eightyPercentHead]

/-- C3 witness: the amended theorem applied to the concrete oversized
mapping `{"a": "a" * 40000, "b": "a" * 10000}`. -/
theorem c3_mapping_witness :
    ∃ k, 1 ≤ k ∧ k ≤ eightyPercentDict.length ∧
      (S2S.safe_json_stringify (.dict eightyPercentDict) "credits" 0).result =
        dumpsStr (.dict (eightyPercentDict.take k)) ∧
      (∀ j, 1 ≤ j → j < k →
        (dumpsStr (.dict (eightyPercentDict.take j))).length ≤ MAX_CELL_SIZE * 8 / 10) ∧
      (k < eightyPercentDict.length →
        (dumpsStr (.dict (eightyPercentDict.take k))).length > MAX_CELL_SIZE * 8 / 10) :=
  c3_mapping_accumulates_until_past_eighty_percent eightyPercentDict "credits" 0
    (by simp [eightyPercentDict]) (by decide)
    (by rw [length_dumpsL_eightyPercentDict]; decide)

theorem length_dumpsL_trackList25 : (dumpsL (.list trackList25)).length = 75076 := by
  rw [trackList25, length_dumpsL_list, show (25 : Nat) = 24 + 1 from rfl,
      length_dumpsElems_replicate, length_dumpsL_str_aStr]

/-- C4: a 25-element list passed as the `tracklist` field whose compact
serialization exceeds `MAX_CELL_SIZE` is encoded as the serialization of a
21-element list (the first 20 tracks plus one sentinel) whose last element's
`title` field contains the text `"...and 5 more"`. -/
theorem c4_tracklist_truncation_sentinel (xs : List PyVal) (tc : Nat)
    (hlen : xs.length = 25) (hs : serializable (.list xs) = true)
    (hb : MAX_CELL_SIZE < (dumpsL (.list xs)).length) :
    (S2S.safe_json_stringify (.list xs) "tracklist" tc).result =
      dumpsStr (.list (xs.take 20 ++ [S2S.tracklistSentinel 5])) ∧
    (xs.take 20 ++ [S2S.tracklistSentinel 5]).length = 21 ∧
    (xs.take 20 ++ [S2S.tracklistSentinel 5]).getLast? = some (S2S.tracklistSentinel 5) ∧
    titleOf (S2S.tracklistSentinel 5) = some (.str "...and 5 more tracks (truncated)") ∧
    containsSub "...and 5 more".data "...and 5 more tracks (truncated)".data = true := by
  have h20 : 20 < xs.length := by omega
  have heval := S2S.safe_json_stringify_tracklist_branch xs tc h20 hs hb
  refine ⟨?_, ?_, List.getLast?_concat _, by rfl, by decide⟩
  · rw [heval, hlen]
  · simp [List.length_take, hlen]

/-- C4 witness: the theorem applied to a concrete 25-element track list whose
serialization is 75,076 characters long. -/
theorem c4_tracklist_witness :
    (S2S.safe_json_stringify (.list trackList25) "tracklist" 0).result =
      dumpsStr (.list (trackList25.take 20 ++ [S2S.tracklistSentinel 5])) ∧
    (trackList25.take 20 ++ [S2S.tracklistSentinel 5]).length = 21 ∧
    (trackList25.take 20 ++ [S2S.tracklistSentinel 5]).getLast? =
      some (S2S.tracklistSentinel 5) ∧
    titleOf (S2S.tracklistSentinel 5) = some (.str "...and 5 more tracks (truncated)") ∧
    containsSub "...and 5 more".data "...and 5 more tracks (truncated)".data = true :=
  c4_tracklist_truncation_sentinel trackList25 0 (by simp [trackList25]) (by decide)
    (by rw [length_dumpsL_trackList25]; decide)

/-- C8 (amended): every invocation of the encoder on a truthy, serializable
value whose compact serialization exceeds `MAX_CELL_SIZE` (branches 2–4)
increments the shared truncation counter by exactly one; but an invocation
whose serialization raises (branch 5) returns the error placeholder with the
counter unchanged — contrary to the claim, which includes the
serialization-exception branch. -/
theorem c8_truncation_counter_branches :
    (∀ (v : PyVal) (f : String) (tc : Nat),
        pyFalsy v = false → serializable v = true →
        MAX_CELL_SIZE < (dumpsL v).length →
        (S2S.safe_json_stringify v f tc).truncation_count = tc + 1) ∧
    (∀ (v : PyVal) (f : String) (tc : Nat),
        serializable v = false →
        (S2S.safe_json_stringify v f tc).truncation_count = tc) := by
  constructor
  · intro v f tc h0 hs hb
    have hjd : json_dumps v = .ok ⟨dumpsL v⟩ := by
      unfold json_dumps
      rw [hs]
      simp
    have hlen : ¬ ((⟨dumpsL v⟩ : String).length ≤ MAX_CELL_SIZE) := by
      simp only [String.length]
      omega
    unfold S2S.safe_json_stringify
    rw [h0]
    simp only [Bool.false_eq_true, if_false, hjd, hlen]
    cases v with
    | list ls => split_ifs <;> rfl
    | dict kvs => rfl
    | none => rfl
    | bool b => rfl
    | int n => rfl
    | str s => rfl
    | obj d => rfl
  · intro v f tc hs
    have hjd : json_dumps v = .error (errDesc v) := by
      unfold json_dumps
      rw [hs]
      simp
    unfold S2S.safe_json_stringify
    by_cases h0 : pyFalsy v
    · rw [h0]
      simp
    · rw [eq_false_of_ne_true h0]
      simp only [Bool.false_eq_true, if_false, hjd]

/-- C8 witness: the amended theorem applied at the oversized mapping
`{"a": "a" * 40000, "b": "a" * 10000}` (counter goes from 5 to 6) and at a
non-serializable object (counter stays 5). -/
theorem c8_truncation_counter_witness :
    (S2S.safe_json_stringify (.dict eightyPercentDict) "images" 5).truncation_count = 6 ∧
    (S2S.safe_json_stringify (.obj "boom") "credits" 5).truncation_count = 5 :=
  ⟨c8_truncation_counter_branches.1 (.dict eightyPercentDict) "images" 5 (by decide) (by decide)
      (by rw [length_dumpsL_eightyPercentDict]; decide),
   c8_truncation_counter_branches.2 (.obj "boom") "credits" 5 (by decide)⟩

/-- C8 counterexample: an invocation that takes the serialization-exception
branch (branch 5) returns the error placeholder but leaves the truncation
counter at its old value 7 — it does not increase by at least one. -/
theorem c8_serialization_error_counterexample :
    json_dumps (PyVal.obj "Circular reference detected") =
      .error "Circular reference detected" ∧
    (S2S.safe_json_stringify (.obj "Circular reference detected") "credits" 7).result =
      S2S.serializationErrorResult "Circular reference detected" ∧
    (S2S.safe_json_stringify (.obj "Circular reference detected") "credits" 7).truncation_count
      = 7 :=
  ⟨rfl, rfl, rfl⟩

theorem foldl_inv {α β : Type} (step : β → α → β) (P : β → Prop)
    (h : ∀ st a, P st → P (step st a)) :
    ∀ (l : List α) (st : β), P st → P (l.foldl step st) := by
  intro l
  induction l with
  | nil =>
      intro st hst
      exact hst
  | cons a l ih =>
      intro st hst
      exact ih _ (h st a hst)

namespace S2S

theorem okAfter_append (n : Nat) (l : List WriteEv) (e : WriteEv) :
    okAfter n (l ++ [e]) = if e.ok then okAfter n l + e.size else okAfter n l := by
  induction l generalizing n with
  | nil => rfl
  | cons w rest ih => simp only [List.cons_append, okAfter, List.append_eq, ih]

theorem contiguousFrom_append (n : Nat) (l : List WriteEv) (e : WriteEv) :
    contiguousFrom n (l ++ [e]) =
      (contiguousFrom n l && (e.start_row == okAfter n l + 2)) := by
  induction l generalizing n with
  | nil => simp [contiguousFrom, okAfter]
  | cons w rest ih =>
      simp only [List.cons_append, contiguousFrom, okAfter, List.append_eq, ih, Bool.and_assoc]

theorem importChunks_inv (env : ImportEnv) (rows : List (List PyVal)) (st : ImportState)
    (h1 : contiguousFrom 0 st.writes = true)
    (h2 : st.imported_count = okAfter 0 st.writes) :
    contiguousFrom 0 (importChunks env rows st).writes = true ∧
      (importChunks env rows st).imported_count =
        okAfter 0 (importChunks env rows st).writes := by
  unfold importChunks
  refine foldl_inv _
    (fun st => contiguousFrom 0 st.writes = true ∧ st.imported_count = okAfter 0 st.writes)
    ?_ _ st ⟨h1, h2⟩
  intro st i hst
  obtain ⟨hc, hi⟩ := hst
  constructor
  · simp only [contiguousFrom_append, hc, Bool.true_and, ← hi, beq_iff_eq]
  · simp only [okAfter_append, ← hi]

theorem importChunks_fetched (env : ImportEnv) (rows : List (List PyVal)) (st : ImportState) :
    (importChunks env rows st).fetched_offsets = st.fetched_offsets := by
  unfold importChunks
  refine foldl_inv _ (fun s => s.fetched_offsets = st.fetched_offsets) ?_ _ st rfl
  intro s i hs
  simpa using hs

theorem importChunks_calls (env : ImportEnv) (rows : List (List PyVal)) (st : ImportState) :
    (importChunks env rows st).write_calls =
        st.write_calls + (pyRange rows.length 50).length ∧
      (importChunks env rows st).writes.length =
        st.writes.length + (pyRange rows.length 50).length := by
  unfold importChunks
  generalize pyRange rows.length 50 = l
  induction l generalizing st with
  | nil => simp
  | cons i rest ih =>
      simp only [List.foldl_cons]
      have h := ih { st with
        write_calls := st.write_calls + 1,
        writes := st.writes ++
          [⟨st.imported_count + 2,
            st.imported_count + 2 + ((rows.drop i).take 50).length - 1,
            ((rows.drop i).take 50).length, env.write_ok st.write_calls⟩],
        imported_count := if env.write_ok st.write_calls then
          st.imported_count + ((rows.drop i).take 50).length else st.imported_count }
      simp only [List.length_cons] at *
      constructor
      · rw [h.1]
        omega
      · rw [h.2]
        simp only [List.length_append, List.length_cons, List.length_nil]
        omega

theorem importOuterStep_inv (env : ImportEnv) (st : ImportState) (offset : Nat)
    (h1 : contiguousFrom 0 st.writes = true)
    (h2 : st.imported_count = okAfter 0 st.writes) :
    contiguousFrom 0 (importOuterStep env st offset).writes = true ∧
      (importOuterStep env st offset).imported_count =
        okAfter 0 (importOuterStep env st offset).writes := by
  unfold importOuterStep
  by_cases hb : (export_albums_batch env offset).isEmpty
  · simp only [hb, if_true]
    exact ⟨h1, h2⟩
  · simp only [hb, Bool.false_eq_true, if_false]
    exact importChunks_inv env _ _ h1 h2

theorem importOuterStep_fetched (env : ImportEnv) (st : ImportState) (offset : Nat) :
    (importOuterStep env st offset).fetched_offsets = st.fetched_offsets ++ [offset] := by
  unfold importOuterStep
  by_cases hb : (export_albums_batch env offset).isEmpty
  · simp only [hb, if_true]
  · simp only [hb, Bool.false_eq_true, if_false, importChunks_fetched]

theorem import_albums_fetches_all_offsets (env : ImportEnv) (total : Nat) (st : ImportState) :
    (import_albums_to_sheets env total st).fetched_offsets =
      st.fetched_offsets ++ pyRange total 300 := by
  unfold import_albums_to_sheets
  generalize pyRange total 300 = l
  induction l generalizing st with
  | nil => simp
  | cons o rest ih =>
      simp only [List.foldl_cons]
      rw [ih, importOuterStep_fetched]
      simp

end S2S

/-- C10: in the size-bounded pipeline, every chunk write of
`import_albums_to_sheets` targets start row `imported_count + 2`, where
`imported_count` counts only previously *successful* chunk writes — so the
successfully written rows always form a contiguous block starting at sheet
row 2, with later rows shifting up past any failed page fetch or chunk
write. -/
theorem c10_chunk_writes_contiguous_from_row_two
    (env : S2S.ImportEnv) (total tc : Nat) :
    S2S.contiguousFrom 0
        (S2S.import_albums_to_sheets env total (S2S.initImportState tc)).writes = true ∧
      (S2S.import_albums_to_sheets env total (S2S.initImportState tc)).imported_count =
        S2S.okAfter 0 (S2S.import_albums_to_sheets env total (S2S.initImportState tc)).writes := by
  unfold S2S.import_albums_to_sheets
  refine foldl_inv (S2S.importOuterStep env)
    (fun st : S2S.ImportState => S2S.contiguousFrom 0 st.writes = true ∧
      st.imported_count = S2S.okAfter 0 st.writes)
    ?_ (pyRange total 300) (S2S.initImportState tc) ⟨rfl, rfl⟩
  intro st o hst
  exact S2S.importOuterStep_inv env st o hst.1 hst.2

namespace M2S

theorem exportLoop_error_stops (fetch : Nat → Except String (List S2S.Album))
    (fuel offset : Nat) (acc : List S2S.Album) (e : String)
    (h : fetch offset = .error e) :
    exportLoop fetch (fuel + 1) offset acc = acc := by
  simp [exportLoop, h]

end M2S

/-- C6 (amended): in the size-bounded pipeline
(`import_albums_to_sheets` of `scripts/supabase_to_sheets.py`) a page-fetch
failure is skipped without retry and pagination continues at the next offset
— every offset of `range(0, total, 300)` is fetched no matter which fetches
fail, and the run never aborts; but in `migrate_to_sheets.py`'s
`export_albums_in_batches`, a page-fetch failure *breaks the export loop*:
pagination does not continue at the next offset (the run then proceeds with
the partial export). -/
theorem c6_page_fetch_failure_behavior :
    (∀ (env : S2S.ImportEnv) (total : Nat) (st : S2S.ImportState),
        (S2S.import_albums_to_sheets env total st).fetched_offsets =
          st.fetched_offsets ++ pyRange total 300) ∧
    (∀ (fetch : Nat → Except String (List S2S.Album)) (fuel offset : Nat)
        (acc : List S2S.Album) (e : String),
        fetch offset = .error e →
        M2S.exportLoop fetch (fuel + 1) offset acc = acc) := by
  exact ⟨S2S.import_albums_fetches_all_offsets, M2S.exportLoop_error_stops⟩

/-- C6 witness: the theorem applied to the oracle that fails at offset 0 —
the export loop stops at once, and a concrete size-bounded import run visits
offsets 0 and 300 even though the fetch at offset 0 fails. -/
theorem c6_page_fetch_witness :
    M2S.exportLoop M2S.failingFetch (4 + 1) 0 [] = [] ∧
    (S2S.import_albums_to_sheets ⟨M2S.failingFetch, fun _ => true⟩ 301
        (S2S.initImportState 0)).fetched_offsets = [0, 300] :=
  ⟨c6_page_fetch_failure_behavior.2 M2S.failingFetch 4 0 [] "network error" rfl,
   by rw [c6_page_fetch_failure_behavior.1 ⟨M2S.failingFetch, fun _ => true⟩ 301
        (S2S.initImportState 0)]; rfl⟩

/-- C6 counterexample: under `failingFetch` the page at offset 0 fails while
offset 1000 still holds a record; `export_albums_in_batches` returns `[]` —
pagination did *not* continue at the next offset, contrary to the claim. -/
theorem c6_migrate_break_counterexample :
    M2S.export_albums_in_batches M2S.failingFetch 5 = [] ∧
    M2S.failingFetch 1000 = .ok [[("id", PyVal.int 1)]] :=
  ⟨rfl, rfl⟩

namespace M2S

theorem migBatchStep_trace (total : Nat) (ok : Nat → Nat → Bool)
    (st : Nat × List MigEv) (i : Nat) :
    (migBatchStep total ok st i).2 = st.2 ++ migBatchEvs total ok i := by
  unfold migBatchStep migBatchEvs
  by_cases hok : ok (i / BATCH_SIZE) 0 <;>
    by_cases hlast : i + BATCH_SIZE < total <;>
      by_cases hr : ok (i / BATCH_SIZE) 1 <;>
        simp [hok, hlast, hr]

theorem mig_foldl_trace (total : Nat) (ok : Nat → Nat → Bool) :
    ∀ (l : List Nat) (st : Nat × List MigEv),
      (l.foldl (migBatchStep total ok) st).2 =
        st.2 ++ (l.map (migBatchEvs total ok)).flatten := by
  intro l
  induction l with
  | nil =>
      intro st
      simp
  | cons i rest ih =>
      intro st
      simp only [List.foldl_cons, List.map_cons, List.flatten_cons]
      rw [ih, migBatchStep_trace]
      simp [List.append_assoc]

theorem mig_import_trace (total : Nat) (ok : Nat → Nat → Bool) :
    (import_albums_in_batches total ok).2 =
      ((pyRange total BATCH_SIZE).map (migBatchEvs total ok)).flatten := by
  unfold import_albums_in_batches
  rw [mig_foldl_trace]
  simp

theorem attemptsFor_append (b : Nat) (l1 l2 : List MigEv) :
    attemptsFor b (l1 ++ l2) = attemptsFor b l1 + attemptsFor b l2 := by
  simp [attemptsFor, List.filter_append]

theorem attemptsFor_block (total : Nat) (ok : Nat → Nat → Bool) (b i : Nat) :
    attemptsFor b (migBatchEvs total ok i) =
      if i / BATCH_SIZE = b then (if ok (i / BATCH_SIZE) 0 then 1 else 2) else 0 := by
  unfold migBatchEvs attemptsFor
  by_cases hb : i / BATCH_SIZE = b
  · rw [hb]
    by_cases hok : ok b 0 <;> by_cases hlast : i + BATCH_SIZE < total <;>
      simp [hok, hlast, List.filter]
  · have hbeq : (i / BATCH_SIZE == b) = false := by
      simpa using hb
    by_cases hok : ok (i / BATCH_SIZE) 0 <;> by_cases hlast : i + BATCH_SIZE < total <;>
      simp [hok, hlast, hb, hbeq, List.filter]

theorem attemptsFor_join_zero (total : Nat) (ok : Nat → Nat → Bool) (b : Nat) :
    ∀ (ks : List Nat), b ∉ ks →
      attemptsFor b ((ks.map (fun k => migBatchEvs total ok (k * BATCH_SIZE))).flatten) = 0 := by
  intro ks
  induction ks with
  | nil =>
      intro _
      rfl
  | cons k rest ih =>
      intro hb
      simp only [List.map_cons, List.flatten_cons]
      rw [attemptsFor_append, attemptsFor_block]
      have hk : k * BATCH_SIZE / BATCH_SIZE = k := by
        apply Nat.mul_div_cancel
        decide
      rw [hk]
      have hkb : ¬ (k = b) := by
        intro h
        exact hb (h ▸ List.mem_cons_self k rest)
      rw [if_neg hkb, ih (fun h => hb (List.mem_cons_of_mem _ h))]

theorem attemptsFor_join_le (total : Nat) (ok : Nat → Nat → Bool) (b : Nat) :
    ∀ (ks : List Nat), ks.Nodup →
      attemptsFor b ((ks.map (fun k => migBatchEvs total ok (k * BATCH_SIZE))).flatten) ≤ 2 := by
  intro ks
  induction ks with
  | nil =>
      intro _
      simp [attemptsFor]
  | cons k rest ih =>
      intro hnd
      simp only [List.map_cons, List.flatten_cons]
      rw [attemptsFor_append, attemptsFor_block]
      have hk : k * BATCH_SIZE / BATCH_SIZE = k := by
        apply Nat.mul_div_cancel
        decide
      rw [hk]
      by_cases hkb : k = b
      · subst hkb
        rw [if_pos rfl]
        rw [attemptsFor_join_zero total ok k rest (List.Nodup.not_mem hnd)]
        split_ifs <;> omega
      · rw [if_neg hkb]
        simpa using ih (List.Nodup.of_cons hnd)

theorem attemptsFor_import_le (total : Nat) (ok : Nat → Nat → Bool) (b : Nat) :
    attemptsFor b (import_albums_in_batches total ok).2 ≤ 2 := by
  rw [mig_import_trace]
  have hmap : (pyRange total BATCH_SIZE).map (migBatchEvs total ok) =
      (List.range ((total + BATCH_SIZE - 1) / BATCH_SIZE)).map
        (fun k => migBatchEvs total ok (k * BATCH_SIZE)) := by
    unfold pyRange
    rw [List.map_map]
    rfl
  rw [hmap]
  exact attemptsFor_join_le total ok b _ (List.nodup_range _)

end M2S

/-- C5 (amended): retry behaviour differs between the two pipelines.  In
`migrate_to_sheets.py`'s `import_albums_in_batches` a failed chunk write is
followed by a 5-second backoff and exactly one retry — at most two write
attempts ever occur for any chunk, and after a failed retry the loop
continues with the next chunk (no failure counter exists).  In the
size-bounded pipeline (`import_albums_to_sheets` of
`scripts/supabase_to_sheets.py`) a failed chunk write is *not retried at
all*: each chunk gets exactly one `update` call and the loop moves on. -/
theorem c5_chunk_write_retry_behavior :
    (∀ (env : S2S.ImportEnv) (rows : List (List PyVal)) (st : S2S.ImportState),
        (S2S.importChunks env rows st).write_calls =
            st.write_calls + (pyRange rows.length 50).length ∧
          (S2S.importChunks env rows st).writes.length =
            st.writes.length + (pyRange rows.length 50).length) ∧
    (∀ (total : Nat) (ok : Nat → Nat → Bool),
        (M2S.import_albums_in_batches total ok).2 =
          ((pyRange total M2S.BATCH_SIZE).map (M2S.migBatchEvs total ok)).flatten) ∧
    (∀ (total : Nat) (ok : Nat → Nat → Bool) (b : Nat),
        M2S.attemptsFor b (M2S.import_albums_in_batches total ok).2 ≤ 2) ∧
    (∀ (total : Nat) (ok : Nat → Nat → Bool) (b : Nat),
        ok b 0 = false →
        M2S.migBatchEvs total ok (b * M2S.BATCH_SIZE) =
          [.attempt b false false, .sleepFor 5, .attempt b true (ok b 1)]) := by
  refine ⟨S2S.importChunks_calls, M2S.mig_import_trace, M2S.attemptsFor_import_le, ?_⟩
  intro total ok b hfail
  unfold M2S.migBatchEvs
  have hk : b * M2S.BATCH_SIZE / M2S.BATCH_SIZE = b := by
    apply Nat.mul_div_cancel
    decide
  rw [hk]
  simp [hfail]

/-- C5 witness: the theorem applied at a concrete failing first attempt —
batch 0 of a 60-row migrate run gets at most two attempts, and its failed
first attempt is followed by a 5-second sleep and one successful retry. -/
theorem c5_chunk_write_retry_witness :
    M2S.attemptsFor 0 (M2S.import_albums_in_batches 60 migOkRetry).2 ≤ 2 ∧
    M2S.migBatchEvs 60 migOkRetry (0 * M2S.BATCH_SIZE) =
      [.attempt 0 false false, .sleepFor 5, .attempt 0 true true] :=
  ⟨c5_chunk_write_retry_behavior.2.2.1 60 migOkRetry 0,
   c5_chunk_write_retry_behavior.2.2.2 60 migOkRetry 0 rfl⟩

/-- C5 counterexample: in the size-bounded pipeline a run whose only chunk
write fails issues exactly one `update` call for it — no backoff, no second
attempt — refuting "waits a fixed backoff interval and retries exactly once"
for this writer. -/
theorem c5_no_retry_counterexample :
    (S2S.import_albums_to_sheets S2S.oneFailEnv 1 (S2S.initImportState 0)).writes =
      [⟨2, 2, 1, false⟩] ∧
    (S2S.import_albums_to_sheets S2S.oneFailEnv 1 (S2S.initImportState 0)).write_calls = 1 :=
  ⟨rfl, rfl⟩

/-- C7 (amended): when the Counting stage fails (the count query raises),
`run_migration` does *not* halt — `get_total_count` swallows the exception
and returns 0, and the run continues: the destination Albums sheet, holding
pre-existing data rows, is still cleared, while no album rows are written
(the import loop over `range(0, 0, 300)` is empty). -/
theorem c7_count_failure_run_continues (env : S2S.RunEnv) (msg : String)
    (hc : env.connections_ok = true)
    (he : env.count_result = .error msg)
    (ha : env.albums_sheet_found = true)
    (hh : env.history_sheet_found = true)
    (hr : 1 < env.albums_sheet_rows) :
    S2S.get_total_count env = 0 ∧
    (S2S.run_migration env).2.albums_cleared = true ∧
    (S2S.run_migration env).2.album_writes = [] := by
  have htot : S2S.get_total_count env = 0 := by
    unfold S2S.get_total_count
    rw [he]
  refine ⟨htot, ?_⟩
  unfold S2S.run_migration S2S.setup_google_sheets
  rw [htot]
  have hrange : pyRange 0 300 = [] := rfl
  by_cases hhr : 1 < env.history_sheet_rows <;>
    simp [hc, ha, hh, hr, hhr, hrange, S2S.import_albums_to_sheets,
      S2S.import_history_to_sheets, S2S.initImportState]

/-- C7 witness: the theorem applied at the concrete oracle environment whose
count query raises while both sheets exist with data rows present. -/
theorem c7_count_failure_witness :
    S2S.get_total_count S2S.envCountFails = 0 ∧
    (S2S.run_migration S2S.envCountFails).2.albums_cleared = true ∧
    (S2S.run_migration S2S.envCountFails).2.album_writes = [] :=
  c7_count_failure_run_continues S2S.envCountFails "count query failed"
    rfl rfl rfl rfl (by decide)

/-- C7 counterexample: at `envCountFails` the count query raises, yet the run
does not halt with the destination untouched — the Albums sheet's five
pre-existing data rows are cleared (and the run even finishes with a `true`
verdict, reconciling 0 against 0). -/
theorem c7_clears_sheets_after_count_failure :
    S2S.envCountFails.count_result = .error "count query failed" ∧
    (S2S.run_migration S2S.envCountFails).2.albums_cleared = true ∧
    (S2S.run_migration S2S.envCountFails).1 = true :=
  ⟨rfl, rfl, rfl⟩
